import Mathlib

/-!
Verification of the sonder-ui combobox core logic.

The repository's widgets (classes ComboEleven and SuiCombobox in
src/components/combo-eleven/combo-eleven.tsx) call three shared pure
utilities: filterOptions, getActionFromKey and getUpdatedIndex.  The
utilities' own source is not part of the material, so they are modelled
from the specification; the widget event handlers are translated from
the component source.  JavaScript property access on a possibly missing
array element (which would raise a TypeError) is modelled by returning
none.
-/

/-- An option of the combobox: a display name and an associated value. -/
structure SelectOption where
  name : String
  value : String
deriving DecidableEq

/-- The symbolic menu actions used by the widgets (enum MenuActions). -/
inductive MenuActions where
  | Close
  | CloseSelect
  | First
  | Last
  | Next
  | Open
  | Previous
  | None
deriving DecidableEq

/-- The characters of a string, each lowercased (case-insensitive view). -/
def lowerChars (s : String) : List Char := s.data.map Char.toLower

/-- Case-insensitive substring containment of the query in an option's name. -/
def matchesFilter (option : SelectOption) (filter : String) : Bool :=
  decide (lowerChars filter <:+: lowerChars option.name)

/-- Modelled from the spec: filterOptions (not under src/) returns every
option whose label contains the query as a case-insensitive substring,
preserving order; an empty query keeps every option. -/
def filterOptions (options : List SelectOption) (filter : String) : List SelectOption :=
  options.filter (fun option => matchesFilter option filter)

/-- Modelled from the spec: getActionFromKey (not under src/) maps a raw
key plus the current open state to a menu action; unrecognized keys map
to MenuActions.None. -/
def getActionFromKey (key : String) (menuOpen : Bool) : MenuActions :=
  if key = "ArrowDown" then (if menuOpen then MenuActions.Next else MenuActions.Open)
  else if key = "ArrowUp" then (if menuOpen then MenuActions.Previous else MenuActions.Open)
  else if key = "Home" then MenuActions.First
  else if key = "End" then MenuActions.Last
  else if key = "Enter" then (if menuOpen then MenuActions.CloseSelect else MenuActions.None)
  else if key = "Escape" then (if menuOpen then MenuActions.Close else MenuActions.None)
  else MenuActions.None

/-- Modelled from the spec: getUpdatedIndex (not under src/) computes the
new active index from the current one, the maximum valid index and the
action; Next and Previous clamp instead of wrapping. -/
def getUpdatedIndex (current maxIndex : Int) (action : MenuActions) : Int :=
  match action with
  | MenuActions.First => 0
  | MenuActions.Last => maxIndex
  | MenuActions.Previous => Max.max 0 (current - 1)
  | MenuActions.Next => Min.min maxIndex (current + 1)
  | _ => current

/-- JavaScript array indexing: out-of-range access yields no element
(dereferencing it then raises, modelled by propagating none). -/
def jsGet (options : List SelectOption) (index : Int) : Option SelectOption :=
  if 0 ≤ index then options[index.toNat]? else none

/-- Mutable state of the ComboEleven widget (class ComboEleven):
options prop, active index, filtered options, menu open flag, selected
index (nullable), input value and the ignore-blur latch. -/
structure ElevenState where
  options : List SelectOption
  activeIndex : Int
  filteredOptions : List SelectOption
  menuOpen : Bool
  selectedIndex : Option Int
  value : String
  ignoreBlur : Bool
deriving DecidableEq

/-- Mutable state of the SuiCombobox widget (class SuiCombobox): the
filter prop, options, active index, filtered options, menu open flag,
input value, ignore-blur latch and the last committed selected value. -/
structure SuiState where
  filter : Bool
  options : List SelectOption
  activeIndex : Int
  filteredOptions : List SelectOption
  menuOpen : Bool
  value : String
  ignoreBlur : Bool
  selectedValue : String
deriving DecidableEq

/-- The input events handled by the widgets: text input, key down, blur,
a click on the text input element, a click on an option, and mouse down
on an option. -/
inductive ComboEvent where
  | input (text : String)
  | keyDown (key : String)
  | blur
  | inputClick
  | optionClick (index : Int)
  | optionMouseDown
deriving DecidableEq

/-- ComboEleven.selectOption: reads filteredOptions at the index (none on
out-of-range access, where the source would raise), sets the value to the
selected name, refilters with the new value, resets activeIndex and
selectedIndex to 0, and returns the emitted option. -/
def ElevenState.selectOption (s : ElevenState) (index : Int) :
    Option (ElevenState × SelectOption) :=
  match jsGet s.filteredOptions index with
  | some selected =>
    some ({ s with
      value := selected.name,
      filteredOptions := filterOptions s.options selected.name,
      activeIndex := 0,
      selectedIndex := some 0 }, selected)
  | none => none

/-- ComboEleven.onInput: refilters from the input text; when the text
changed, stores it and resets activeIndex to 0 and selectedIndex to null;
then sets the menu open flag to whether the filtered list is non-empty. -/
def ElevenState.onInput (s : ElevenState) (curValue : String) : ElevenState :=
  let filtered := filterOptions s.options curValue
  let s1 := { s with filteredOptions := filtered }
  let s2 := if s1.value ≠ curValue then
      { s1 with value := curValue, activeIndex := 0, selectedIndex := none }
    else s1
  let menuState := decide (0 < filtered.length)
  if s2.menuOpen ≠ menuState then { s2 with menuOpen := menuState } else s2

/-- ComboEleven.onInputKeyDown: classifies the key against the open flag;
navigation actions update the active index; CloseSelect selects the active
option and (by switch fall-through) closes; Close closes; Open opens. -/
def ElevenState.onInputKeyDown (s : ElevenState) (key : String) :
    Option (ElevenState × List SelectOption) :=
  let maxIndex : Int := (s.filteredOptions.length : Int) - 1
  let action := getActionFromKey key s.menuOpen
  match action with
  | MenuActions.Next | MenuActions.Last | MenuActions.First | MenuActions.Previous =>
    some ({ s with activeIndex := getUpdatedIndex s.activeIndex maxIndex action }, [])
  | MenuActions.CloseSelect =>
    match s.selectOption s.activeIndex with
    | some (s1, selected) => some ({ s1 with menuOpen := false }, [selected])
    | none => none
  | MenuActions.Close => some ({ s with menuOpen := false }, [])
  | MenuActions.Open => some ({ s with menuOpen := true }, [])
  | MenuActions.None => some (s, [])

/-- ComboEleven.onInputBlur: consumes the ignore-blur latch, otherwise
closes the menu. -/
def ElevenState.onInputBlur (s : ElevenState) : ElevenState :=
  if s.ignoreBlur then { s with ignoreBlur := false }
  else { s with menuOpen := false }

/-- ComboEleven.onOptionClick: moves the active index to the clicked
option, selects it, and closes the menu. -/
def ElevenState.onOptionClick (s : ElevenState) (index : Int) :
    Option (ElevenState × List SelectOption) :=
  let s1 := { s with activeIndex := index }
  match s1.selectOption index with
  | some (s2, selected) => some ({ s2 with menuOpen := false }, [selected])
  | none => none

/-- One step of the ComboEleven widget: dispatches an event to the
corresponding handler (a click on the text input runs the inline
updateMenuState(true) handler); the result carries the new state and the
list of emitted select events, or none when the source would raise. -/
def stepEleven (s : ElevenState) (e : ComboEvent) :
    Option (ElevenState × List SelectOption) :=
  match e with
  | ComboEvent.input text => some (s.onInput text, [])
  | ComboEvent.keyDown key => s.onInputKeyDown key
  | ComboEvent.blur => some (s.onInputBlur, [])
  | ComboEvent.inputClick => some ({ s with menuOpen := true }, [])
  | ComboEvent.optionClick index => s.onOptionClick index
  | ComboEvent.optionMouseDown => some ({ s with ignoreBlur := true }, [])

/-- SuiCombobox.selectOption: reads filteredOptions at the index (none on
out-of-range access, where the source would raise), sets value and
selectedValue to the selected name, resets activeIndex to 0, refilters
when the filter prop is set, and returns the emitted option. -/
def SuiState.selectOption (s : SuiState) (index : Int) :
    Option (SuiState × SelectOption) :=
  match jsGet s.filteredOptions index with
  | some selected =>
    let s1 := { s with
      value := selected.name,
      selectedValue := selected.name,
      activeIndex := 0 }
    let s2 := if s1.filter then
        { s1 with filteredOptions := filterOptions s1.options s1.value }
      else s1
    some (s2, selected)
  | none => none

/-- SuiCombobox.onInput: with the filter prop, refilters and resets the
active index to 0; without it, moves the active index to the first
matching option when the current active option no longer matchList (none on
out-of-range access to options, where the source would raise); then stores
the changed text and sets the open flag from the filtered list length. -/
def SuiState.onInput (s : SuiState) (curValue : String) : Option SuiState :=
  let matchList := filterOptions s.options curValue
  let s1opt : Option SuiState :=
    if s.filter then
      some { s with filteredOptions := matchList, activeIndex := 0 }
    else
      match jsGet s.options s.activeIndex with
      | none => none
      | some currentOption =>
        let filterCurrentOption :=
          matchList.filter (fun option => option.name == currentOption.name)
        match matchList.head? with
        | some firstMatch =>
          if filterCurrentOption.length = 0 then
            some { s with activeIndex := (s.options.indexOf firstMatch : Int) }
          else some s
        | none => some s
  match s1opt with
  | none => none
  | some s1 =>
    let s2 := if s1.value ≠ curValue then { s1 with value := curValue } else s1
    let menuState := decide (0 < s2.filteredOptions.length)
    some (if s2.menuOpen ≠ menuState then { s2 with menuOpen := menuState } else s2)

/-- SuiCombobox.onInputKeyDown: navigation actions update the active
index; CloseSelect selects and closes; Close resets the active index,
reverts the value to the last committed selection, restores the full
option list and closes; Open opens. -/
def SuiState.onInputKeyDown (s : SuiState) (key : String) :
    Option (SuiState × List SelectOption) :=
  let maxIndex : Int := (s.filteredOptions.length : Int) - 1
  let action := getActionFromKey key s.menuOpen
  match action with
  | MenuActions.Next | MenuActions.Last | MenuActions.First | MenuActions.Previous =>
    some ({ s with activeIndex := getUpdatedIndex s.activeIndex maxIndex action }, [])
  | MenuActions.CloseSelect =>
    match s.selectOption s.activeIndex with
    | some (s1, selected) => some ({ s1 with menuOpen := false }, [selected])
    | none => none
  | MenuActions.Close =>
    some ({ s with
      activeIndex := 0,
      value := s.selectedValue,
      filteredOptions := s.options,
      menuOpen := false }, [])
  | MenuActions.Open => some ({ s with menuOpen := true }, [])
  | MenuActions.None => some (s, [])

/-- SuiCombobox.onInputBlur: consumes the ignore-blur latch; otherwise,
when the menu is open, selects the active option and closes. -/
def SuiState.onInputBlur (s : SuiState) : Option (SuiState × List SelectOption) :=
  if s.ignoreBlur then some ({ s with ignoreBlur := false }, [])
  else if s.menuOpen then
    match s.selectOption s.activeIndex with
    | some (s1, selected) => some ({ s1 with menuOpen := false }, [selected])
    | none => none
  else some (s, [])

/-- SuiCombobox.onOptionClick: moves the active index to the clicked
option, selects it, and closes the menu. -/
def SuiState.onOptionClick (s : SuiState) (index : Int) :
    Option (SuiState × List SelectOption) :=
  let s1 := { s with activeIndex := index }
  match s1.selectOption index with
  | some (s2, selected) => some ({ s2 with menuOpen := false }, [selected])
  | none => none

/-- One step of the SuiCombobox widget: dispatches an event to the
corresponding handler (a click on the text input runs the inline
updateMenuState(true) handler); the result carries the new state and the
list of emitted select events, or none when the source would raise. -/
def stepSui (s : SuiState) (e : ComboEvent) :
    Option (SuiState × List SelectOption) :=
  match e with
  | ComboEvent.input text => (s.onInput text).map (fun s1 => (s1, []))
  | ComboEvent.keyDown key => s.onInputKeyDown key
  | ComboEvent.blur => s.onInputBlur
  | ComboEvent.inputClick => some ({ s with menuOpen := true }, [])
  | ComboEvent.optionClick index => s.onOptionClick index
  | ComboEvent.optionMouseDown => some ({ s with ignoreBlur := true }, [])

/-- A ComboEleven state with one option and the menu open, used for the
concrete transition counterexample. -/
def elevenAlaskaOpen : ElevenState :=
  { options := [⟨"Alaska", "AK"⟩],
    activeIndex := 0,
    filteredOptions := [⟨"Alaska", "AK"⟩],
    menuOpen := true,
    selectedIndex := none,
    value := "",
    ignoreBlur := false }

/-- A ComboEleven state with an empty option list and the menu closed. -/
def elevenEmpty : ElevenState :=
  { options := [],
    activeIndex := 0,
    filteredOptions := [],
    menuOpen := false,
    selectedIndex := none,
    value := "",
    ignoreBlur := false }

/-- The empty-list ComboEleven state after the menu was opened. -/
def elevenEmptyOpen : ElevenState := { elevenEmpty with menuOpen := true }

/-- A SuiCombobox state (filtering variant) with an empty option list and
the menu closed. -/
def suiEmpty : SuiState :=
  { filter := true,
    options := [],
    activeIndex := 0,
    filteredOptions := [],
    menuOpen := false,
    value := "",
    ignoreBlur := false,
    selectedValue := "" }

/-- The empty-list SuiCombobox state after the menu was opened. -/
def suiEmptyOpen : SuiState := { suiEmpty with menuOpen := true }

/-- The empty-list SuiCombobox state after typing the letter a. -/
def suiEmptyTypedA : SuiState := { suiEmpty with value := "a" }

lemma nilInfix {α : Type} (l : List α) : [] <:+: l := ⟨[], l, rfl⟩

/-- Claim C1: for max >= 0 and current in [0, max], getUpdatedIndex returns 0
for First, max for Last, min (current + 1) max for Next (no wrap past the
end), max (current - 1) 0 for Previous (no wrap at the start), current
unchanged for Open, Close, CloseSelect and None, and the result always lies
within [0, max]. -/
theorem getUpdatedIndex_spec (current maxIndex : Int)
    (h0 : 0 ≤ current) (h1 : current ≤ maxIndex) :
    getUpdatedIndex current maxIndex MenuActions.First = 0 ∧
    getUpdatedIndex current maxIndex MenuActions.Last = maxIndex ∧
    getUpdatedIndex current maxIndex MenuActions.Next = Min.min (current + 1) maxIndex ∧
    getUpdatedIndex current maxIndex MenuActions.Previous = Max.max (current - 1) 0 ∧
    getUpdatedIndex current maxIndex MenuActions.Open = current ∧
    getUpdatedIndex current maxIndex MenuActions.Close = current ∧
    getUpdatedIndex current maxIndex MenuActions.CloseSelect = current ∧
    getUpdatedIndex current maxIndex MenuActions.None = current ∧
    ∀ action, 0 ≤ getUpdatedIndex current maxIndex action ∧
      getUpdatedIndex current maxIndex action ≤ maxIndex := by
  refine ⟨rfl, rfl, ?_, ?_, rfl, rfl, rfl, rfl, ?_⟩
  · simp only [getUpdatedIndex]
    omega
  · simp only [getUpdatedIndex]
    omega
  · intro action
    cases action <;> simp only [getUpdatedIndex] <;> omega

/-- Witness for C1 at current = 2, max = 4. -/
theorem getUpdatedIndex_spec_witness :
    getUpdatedIndex 2 4 MenuActions.Next = Min.min (2 + 1) 4 :=
  (getUpdatedIndex_spec 2 4 (by decide) (by decide)).2.2.1

/-- Claim C2: filterOptions keeps exactly the options whose name contains
the query case-insensitively, in the original order (a sublist); the empty
query keeps every option; no dropped option matchList. -/
theorem filterOptions_spec (options : List SelectOption) (query : String) :
    filterOptions options "" = options ∧
    (filterOptions options query).Sublist options ∧
    (∀ option ∈ filterOptions options query,
      lowerChars query <:+: lowerChars option.name) ∧
    (∀ option ∈ options, option ∉ filterOptions options query →
      ¬ lowerChars query <:+: lowerChars option.name) := by
  refine ⟨?_, List.filter_sublist options, ?_, ?_⟩
  · unfold filterOptions
    rw [List.filter_eq_self]
    intro option _
    exact decide_eq_true (nilInfix (lowerChars option.name))
  · intro option hmem
    simp only [filterOptions, List.mem_filter, matchesFilter,
      decide_eq_true_eq] at hmem
    exact hmem.2
  · intro option hmem hnot hinf
    refine hnot ?_
    simp only [filterOptions, List.mem_filter, matchesFilter, decide_eq_true_eq]
    exact ⟨hmem, hinf⟩

/-- Claim C3: getActionFromKey is total: ArrowDown and ArrowUp open a closed
menu and move next/previous in an open one; Home is First, End is Last;
Enter is CloseSelect when open and None when closed; Escape is Close when
open and None when closed; Tab, printable characters and every other key map
to None. -/
theorem getActionFromKey_spec (key : String) (isOpen : Bool) :
    getActionFromKey "ArrowDown" false = MenuActions.Open ∧
    getActionFromKey "ArrowDown" true = MenuActions.Next ∧
    getActionFromKey "ArrowUp" false = MenuActions.Open ∧
    getActionFromKey "ArrowUp" true = MenuActions.Previous ∧
    getActionFromKey "Home" isOpen = MenuActions.First ∧
    getActionFromKey "End" isOpen = MenuActions.Last ∧
    getActionFromKey "Enter" true = MenuActions.CloseSelect ∧
    getActionFromKey "Enter" false = MenuActions.None ∧
    getActionFromKey "Escape" true = MenuActions.Close ∧
    getActionFromKey "Escape" false = MenuActions.None ∧
    (key ∉ (["ArrowDown", "ArrowUp", "Home", "End", "Enter", "Escape"] : List String) →
      getActionFromKey key isOpen = MenuActions.None) := by
  refine ⟨rfl, rfl, rfl, rfl, by cases isOpen <;> rfl, by cases isOpen <;> rfl,
    rfl, rfl, rfl, rfl, ?_⟩
  intro hmem
  simp only [List.mem_cons, List.not_mem_nil, or_false, not_or] at hmem
  obtain ⟨h1, h2, h3, h4, h5, h6⟩ := hmem
  simp [getActionFromKey, h1, h2, h3, h4, h5, h6]

/-- Witness for C3 at the unrecognized key "Tab". -/
theorem getActionFromKey_spec_witness :
    getActionFromKey "Tab" true = MenuActions.None :=
  (getActionFromKey_spec "Tab" true).2.2.2.2.2.2.2.2.2.2 (by decide)

/-- Claim C8: applying First twice equals applying it once, and Next at the
upper bound is a no-op. -/
theorem getUpdatedIndex_algebra (current maxIndex : Int)
    (h0 : 0 ≤ current) (h1 : current ≤ maxIndex) :
    getUpdatedIndex (getUpdatedIndex current maxIndex MenuActions.First) maxIndex
        MenuActions.First
      = getUpdatedIndex current maxIndex MenuActions.First ∧
    (current = maxIndex →
      getUpdatedIndex current maxIndex MenuActions.Next = current) := by
  refine ⟨rfl, ?_⟩
  intro heq
  simp only [getUpdatedIndex]
  omega

/-- Witness for C8 at current = max = 3. -/
theorem getUpdatedIndex_algebra_witness :
    getUpdatedIndex 3 3 MenuActions.Next = 3 :=
  (getUpdatedIndex_algebra 3 3 (by decide) (by decide)).2 rfl

/-- Claim C9: the three core functions are deterministic (equal inputs give
equal outputs, with no hidden state) and filterOptions is stable under
repeated invocation on its own output (it returns a value, not a mutation
of its input). -/
theorem core_functions_pure (options : List SelectOption) (query key : String)
    (menuOpen : Bool) (current maxIndex : Int) (action : MenuActions) :
    (∀ options2 query2, options = options2 → query = query2 →
      filterOptions options query = filterOptions options2 query2) ∧
    (∀ key2 menuOpen2, key = key2 → menuOpen = menuOpen2 →
      getActionFromKey key menuOpen = getActionFromKey key2 menuOpen2) ∧
    (∀ current2 maxIndex2 action2,
      current = current2 → maxIndex = maxIndex2 → action = action2 →
      getUpdatedIndex current maxIndex action
        = getUpdatedIndex current2 maxIndex2 action2) ∧
    filterOptions (filterOptions options query) query
      = filterOptions options query := by
  refine ⟨?_, ?_, ?_, ?_⟩
  · intro options2 query2 h1 h2
    rw [h1, h2]
  · intro key2 menuOpen2 h1 h2
    rw [h1, h2]
  · intro current2 maxIndex2 action2 h1 h2 h3
    rw [h1, h2, h3]
  · simp [filterOptions, List.filter_filter]

/-- Claim C5: with an empty option list both widgets open the menu on
ArrowDown, and then ComboEleven fails on Enter (CloseSelect reads the
missing active option) while SuiCombobox (filtering variant) fails on
blur while open: the handlers do not complete without failure. -/
theorem empty_list_select_crashes :
    stepEleven elevenEmpty (ComboEvent.keyDown "ArrowDown")
      = some (elevenEmptyOpen, []) ∧
    stepEleven elevenEmptyOpen (ComboEvent.keyDown "Enter") = none ∧
    stepSui suiEmpty (ComboEvent.keyDown "ArrowDown") = some (suiEmptyOpen, []) ∧
    stepSui suiEmptyOpen ComboEvent.blur = none :=
  ⟨by decide, by decide, by decide, by decide⟩

/-- Claim C6: when Enter resolves to CloseSelect while the ComboEleven
menu is open, or an option is clicked, the widget sets the value to the
committed option's name, emits a select event carrying it, and the menu
ends closed. -/
theorem eleven_select_commits (s : ElevenState)
    (selected selectedClick : SelectOption) (index : Int)
    (hopen : s.menuOpen = true)
    (hactive : jsGet s.filteredOptions s.activeIndex = some selected)
    (hclick : jsGet s.filteredOptions index = some selectedClick) :
    (∃ s', stepEleven s (ComboEvent.keyDown "Enter") = some (s', [selected]) ∧
      s'.value = selected.name ∧ s'.menuOpen = false) ∧
    (∃ s', stepEleven s (ComboEvent.optionClick index)
        = some (s', [selectedClick]) ∧
      s'.value = selectedClick.name ∧ s'.menuOpen = false) := by
  constructor
  · unfold stepEleven ElevenState.onInputKeyDown
    rw [hopen]
    dsimp only
    have hact : getActionFromKey "Enter" true = MenuActions.CloseSelect := by decide
    rw [hact]
    dsimp only
    unfold ElevenState.selectOption
    rw [hactive]
    dsimp only
    exact ⟨_, rfl, rfl, rfl⟩
  · unfold stepEleven ElevenState.onOptionClick
    dsimp only
    unfold ElevenState.selectOption
    dsimp only
    rw [hclick]
    dsimp only
    exact ⟨_, rfl, rfl, rfl⟩

/-- Witness for C6 at the open single-option state with Alaska active and
clicked. -/
theorem eleven_select_commits_witness :
    (∃ s', stepEleven elevenAlaskaOpen (ComboEvent.keyDown "Enter")
        = some (s', [⟨"Alaska", "AK"⟩]) ∧
      s'.value = (⟨"Alaska", "AK"⟩ : SelectOption).name ∧ s'.menuOpen = false) ∧
    (∃ s', stepEleven elevenAlaskaOpen (ComboEvent.optionClick 0)
        = some (s', [⟨"Alaska", "AK"⟩]) ∧
      s'.value = (⟨"Alaska", "AK"⟩ : SelectOption).name ∧ s'.menuOpen = false) :=
  eleven_select_commits elevenAlaskaOpen ⟨"Alaska", "AK"⟩ ⟨"Alaska", "AK"⟩ 0
    rfl (by decide) (by decide)

/-- Claim C7: Escape while the SuiCombobox menu is open reverts the value
to the last committed selected value, restores the full option list as the
filtered list, resets the active index to 0, and closes the menu, emitting
nothing. -/
theorem sui_escape_reverts (s : SuiState) (hopen : s.menuOpen = true) :
    stepSui s (ComboEvent.keyDown "Escape") =
      some ({ s with
        activeIndex := 0,
        value := s.selectedValue,
        filteredOptions := s.options,
        menuOpen := false }, []) := by
  unfold stepSui SuiState.onInputKeyDown
  rw [hopen]
  dsimp only
  have hact : getActionFromKey "Escape" true = MenuActions.Close := by decide
  rw [hact]

/-- Witness for C7 at the open empty-list SuiCombobox state. -/
theorem sui_escape_reverts_witness :
    stepSui suiEmptyOpen (ComboEvent.keyDown "Escape") =
      some ({ suiEmptyOpen with
        activeIndex := 0,
        value := suiEmptyOpen.selectedValue,
        filteredOptions := suiEmptyOpen.options,
        menuOpen := false }, []) :=
  sui_escape_reverts suiEmptyOpen rfl

/-- Claim C10: a ComboEleven input event whose text differs from the
stored value resets activeIndex to 0 and clears selectedIndex; a
SuiCombobox input event with the filter prop set resets activeIndex
to 0. -/
theorem input_resets_active_index (s : ElevenState) (s2 s2' : SuiState)
    (t : String) (hne : s.value ≠ t) (hf : s2.filter = true)
    (hin : s2.onInput t = some s2') :
    ((s.onInput t).activeIndex = 0 ∧ (s.onInput t).selectedIndex = none) ∧
    s2'.activeIndex = 0 := by
  constructor
  · unfold ElevenState.onInput
    simp only [hne, ite_true, reduceIte]
    split <;> simp_all
  · unfold SuiState.onInput at hin
    simp only [hf, ite_true, reduceIte] at hin
    dsimp only at hin
    simp only [Option.some.injEq] at hin
    rw [← hin]
    split <;> split <;> rfl

/-- Witness for C10 at the empty-list states after typing the letter a. -/
theorem input_resets_active_index_witness :
    ((elevenEmpty.onInput "a").activeIndex = 0 ∧
      (elevenEmpty.onInput "a").selectedIndex = none) ∧
    suiEmptyTypedA.activeIndex = 0 :=
  input_resets_active_index elevenEmpty suiEmpty suiEmptyTypedA "a"
    (by decide) rfl (by decide)
